import Mathlib

/-!
# Verification of the staging pipeline in src/api/add.js

This file embeds the staging pipeline of src/api/add.js — the public
operation add, the recursive per-path coordinator addToIndex, and the
glob expansion expandGlobs — as executable Lean definitions, and proves
the specified properties about them.

Embedding discipline:

* An awaited async value is interpreted by what its promise resolved to
  (thrown errors are modelled with Except); crucially, awaiting an
  ARRAY does not resolve promise elements sitting inside it, and the
  embedding preserves that distinction.  Concurrent fan-out (the map
  over sibling paths) is modelled by evaluating every sibling task and
  collecting all outcomes in input order: faithful to
  Promise.allSettled, which never cancels a sibling and reports every
  outcome, and to Promise.all in the directory branch, which reports
  the first rejection while the remaining tasks still run to
  completion.
* The external collaborators (the FileSystem wrapper, GitIgnoreManager,
  GitIndexManager, the object store _writeObject, and the utilities
  join / posixifyPathBuffer / assertParameter) are not under src/; they
  are modelled from the spec as a record of pure functions (Collab),
  and every call the pipeline makes to them WITH AN ARGUMENT THE SOURCE
  DETERMINES is recorded in an event trace, so that theorems can speak
  about which objects were written, which index entries were inserted,
  and which file-system paths were touched.
* The source's coordinator is recursive; the embedding keeps a fuel
  parameter with a distinguished outOfFuel error at zero.  (Under the
  faithful composition below the modelled recursion stops at the first
  promise boundary, so any positive fuel suffices.)

The load-bearing defect of the source, and how it is embedded: the
source's expandGlobs concatenates the promises produced by its async map
callback without awaiting them (no Promise.all), so the array addToIndex
awaits at line 60 has one PROMISE per input path as its elements, not
path strings.  Every per-path task of line 61 therefore closes over a
promise object and hands it to the collaborators (isIgnored, join before
lstat, the NotFoundError constructor), whose contracts are defined on
paths only; the same happens one level down, because the line-77
recursion re-enters expandGlobs.  The embedding keeps this faithfully:

* expandGlobs is the value shape the program computes — one resolved
  expansion list per input path, never flattened; its readdir side
  effects (expandEvs) do occur, since every expansion callback runs.
* The behaviour of a task that received such a promise is outside the
  collaborators' contracts and is modelled by the unconstrained Collab
  parameter promiseTask (only its settle outcome; the collaborator
  calls it makes carry arguments the source does not determine, and the
  trace does not record them).
* addToIndex composes exactly that: the expansion phase, then one
  promiseTask per input path, then the settle of lines 97-106.
* perPath is the per-path task body of lines 61-95 as a function of a
  path STRING — the per-path contract the spec describes, exercised
  branch by branch by the per-path claims; its directory branch embeds
  the line-77 recursion faithfully: the recursive call re-expands the
  joined child path (a real readdir) and hands its single task the
  unawaited promise, i.e. promiseTask.
-/

/-- The kind a file-system stat reports: regular file, directory,
symbolic link, or anything else (socket, fifo, device, ...). -/
inductive FKind where
  | file
  | dir
  | link
  | other
deriving DecidableEq, Repr

/-- One recorded call to an external collaborator.  lstat, readdir,
read and readlink carry the exact path string handed to the file
system; writeObject carries the blob content handed to the object
store; insert carries the path and content id handed to the index. -/
inductive Ev where
  | isIgnored (p : String)
  | lstat (p : String)
  | readdir (p : String)
  | read (p : String)
  | readlink (p : String)
  | writeObject (content : String)
  | insert (p : String) (oid : String)
deriving DecidableEq, Repr

/-- Errors thrown out of addToIndex's tasks: NotFoundError carrying the
filepath it was constructed with, MultipleGitError carrying the list of
underlying errors, an error raised by a collaborator (spec section 7),
and the fuel marker of the embedding. -/
inductive AddErr where
  | notFound (p : String)
  | multiple (errs : List AddErr)
  | external (msg : String)
  | outOfFuel

/-- Modelled from the spec: the external collaborators of section 6
(FileSystem lstat/readdir/read/readlink, GitIgnoreManager.isIgnored,
_writeObject), none of which are under src/.  lstat returns the kind or
none for not-found; read returns the bytes or none for not-found;
readlink returns the raw link target or none; ignored is the boolean
ignore predicate on a working-tree-relative path; writeObject is the
content-addressed id function (content determines the id).

promiseTask is also modelled from the spec, negatively: it is the
settle outcome of a per-path task whose currentFilepath argument is an
unawaited promise (resolving to the given expansion list) instead of a
path string.  The collaborators' contracts (spec sections 4.3 and 6)
are defined on paths only, so nothing in src/ or the spec determines
such a task's behaviour; the model leaves the outcome an unconstrained
parameter and records none of the task's collaborator calls, since
their arguments are likewise undetermined.  The concrete working trees
below instantiate it with a placeholder no stated theorem depends on. -/
structure Collab where
  lstat : String → Option FKind
  readdir : String → List String
  read : String → Option String
  readlink : String → Option String
  ignored : String → Bool
  writeObject : String → String
  promiseTask : List String → Except AddErr Unit

/-- Modelled from the spec: utils/join.js is not under src/; a joined
path is the left part, a slash, and the right part. -/
def joinP (a b : String) : String := a ++ "/" ++ b

/-- Modelled from the spec: utils/posixifyPathBuffer.js is not under
src/; normalizing a link target to forward-slash form replaces each
backslash byte with a forward slash. -/
def posixify (s : String) : String :=
  String.mk (s.data.map (fun c => if c = '\\' then '/' else c))

/-- Whether the character occurs in the string (String.contains, kept
as a structural recursion over the character list so that it evaluates
inside the kernel). -/
def containsChar (s : String) (c : Char) : Bool := s.data.contains c

/-- JavaScript String.prototype.split on a single separator character:
empty pieces are preserved, and the empty input gives one empty piece. -/
def splitCharsOn (sep : Char) : List Char → List (List Char)
  | [] => [[]]
  | c :: cs =>
    let r := splitCharsOn sep cs
    if c = sep then [] :: r
    else
      match r with
      | [] => [[c]]
      | g :: gs => (c :: g) :: gs

/-- Rejoin path pieces with slashes (the JavaScript array join method
on a slash separator);
the empty list gives the empty string. -/
def intercalateSlash : List String → String
  | [] => ""
  | [x] => x
  | x :: xs => x ++ "/" ++ intercalateSlash xs

/-- One token of the compiled glob regular expression
  new RegExp(start-anchor ++ file.replace(star to dot-star).replace(question to dot) ++ end-anchor).
A star in the pattern becomes dot-star (any sequence), a question mark
becomes dot (any one character), and every other character is kept
UNESCAPED, so a literal dot in the pattern is itself the regex
wildcard: it is tokenized as anyc.  The tokenization covers patterns
whose remaining characters carry no other regex meaning (letters,
digits, dashes, underscores, ...), which is the fragment the theorems
below use. -/
inductive GTok where
  | star
  | anyc
  | lit (c : Char)
deriving DecidableEq, Repr

/-- Tokenize the file-pattern component exactly as the source compiles
it (src/api/add.js line 128-130): star to any-sequence, question mark
to any-character, dot kept unescaped hence also any-character, all
other characters literal. -/
def globTokens (cs : List Char) : List GTok :=
  cs.map (fun c =>
    if c = '*' then GTok.star
    else if c = '?' ∨ c = '.' then GTok.anyc
    else GTok.lit c)

/-- Anchored matching of a token list against a name, the semantics of
the compiled anchored regex: star matches any (possibly empty) sequence,
anyc exactly one character, lit that character.  The recursion is
structural on a fuel argument so that the kernel can evaluate it; every
recursive call shrinks the combined length of the token list and the
name by at least one, so the wrapper's fuel is always sufficient. -/
def globMatchF : Nat → List GTok → List Char → Bool
  | 0, _, _ => false
  | Nat.succ _, [], [] => true
  | Nat.succ _, [], _ :: _ => false
  | Nat.succ _, GTok.lit _ :: _, [] => false
  | Nat.succ f, GTok.lit c :: ts, x :: xs => c = x && globMatchF f ts xs
  | Nat.succ _, GTok.anyc :: _, [] => false
  | Nat.succ f, GTok.anyc :: ts, _ :: xs => globMatchF f ts xs
  | Nat.succ f, GTok.star :: ts, [] => globMatchF f ts []
  | Nat.succ f, GTok.star :: ts, x :: xs =>
      globMatchF f ts (x :: xs) || globMatchF f (GTok.star :: ts) xs

/-- Anchored matching with the always-sufficient fuel. -/
def globMatch (ts : List GTok) (xs : List Char) : Bool :=
  globMatchF (ts.length + xs.length + 1) ts xs

/-- The body of the map callback of expandGlobs (src/api/add.js lines
117-135) for one requested path: if the path contains a star, split it
at the slashes, take everything before the last slash as the directory
and the last piece as the file pattern, list the directory (NOTE: the
source passes globDirectory to fs.readdir bare, without join(dir, ...)),
keep the entries whose whole name matches the compiled pattern, and
rejoin them with the directory; otherwise the path passes through
unchanged as a singleton.  Returns the expanded paths together with the
file-system calls made. -/
def expandGlobPath (C : Collab) (p : String) : List String × List Ev :=
  if containsChar p '*' then
    let parts := (splitCharsOn '/' p.data).map String.mk
    let globDirectory := intercalateSlash parts.dropLast
    let globFile := (parts.getLast?).getD ""
    let globFiles := C.readdir globDirectory
    let kept := globFiles.filter (fun f => globMatch (globTokens globFile.data) f.data)
    (kept.map (fun f => joinP globDirectory f), [Ev.readdir globDirectory])
  else ([p], [])

/-- expandGlobs as the source resolves it (src/api/add.js lines
115-138): the async map produces one promise per input path and the
reduce concatenates the PROMISES themselves (appending each one as a
single element, since a promise is not concat-spreadable), so the array
the caller awaits has one element per input path, each element being
the resolved value of that path's promise — a list of paths, not a
path. -/
def expandGlobs (C : Collab) (filepath : List String) : List (List String) :=
  (filepath.map (fun p => (expandGlobPath C p).1)).foldl (fun a b => a ++ [b]) []

/-- The readdir events produced while expanding a path list.  These
really occur in the deployed program: every expansion callback runs
even though its result promise is never awaited. -/
def expandEvs (C : Collab) (filepath : List String) : List Ev :=
  (filepath.map (fun p => (expandGlobPath C p).2)).flatten

/-- The rejection reason of a settled task, if it was rejected. -/
def exceptErr : Except AddErr Unit → Option AddErr
  | Except.error e => some e
  | Except.ok _ => none

/-- The rejected reasons among the settled task outcomes, in task
order (src/api/add.js lines 98-100). -/
def rejectedOf (settled : List (Except AddErr Unit)) : List AddErr :=
  settled.filterMap exceptErr

/-- The coordinator's decision after Promise.allSettled (src/api/add.js
lines 97-106): more than one rejection throws MultipleGitError over all
of them, exactly one rethrows it, none succeeds. -/
def settleOutcome (settled : List (Except AddErr Unit)) : Except AddErr Unit :=
  if 1 < (rejectedOf settled).length then
    Except.error (AddErr.multiple (rejectedOf settled))
  else
    match rejectedOf settled with
    | [e] => Except.error e
    | _ => Except.ok ()

/-- Promise.all over the directory-children tasks (src/api/add.js line
86): the reported outcome is the first rejection in order, or success;
every task still runs (their traces are all kept by the caller). -/
def firstError : List (Except AddErr Unit) → Except AddErr Unit
  | [] => Except.ok ()
  | Except.ok _ :: rs => firstError rs
  | Except.error e :: _ => Except.error e

/-- One per-path task of addToIndex (the async callback of
src/api/add.js lines 61-95) as a function of a path STRING — the
per-path contract of the spec, which the deployed composition never
feeds an actual string because of the unawaited-promise defect (see the
header and C2).  Returns the task outcome and the trace of its
determined collaborator calls:
* unless force, consult the ignore filter and succeed silently if
  ignored (lines 62-70);
* lstat the joined path, NotFoundError on null (lines 71-72);
* directory: readdir the joined path and run every child through the
  recursive addToIndex of line 77, the reported outcome being
  Promise.all's (lines 74-86).  The recursive call is embedded
  faithfully: it re-runs expandGlobs on the singleton joined child path
  (whose readdir side effects are real), hands its SINGLE task the
  unawaited promise of that expansion — hence the task's outcome is the
  unconstrained promiseTask and its collaborator calls are unrecorded —
  and settles that one outcome by lines 97-106;
* otherwise readlink (posixified) for a symbolic link, read for
  anything else, NotFoundError on null content, write the blob and
  insert the index entry (lines 87-94).
The fuel only guards the door (the faithful body no longer
self-recurses: the recursion dies at the promise boundary). -/
def perPath : Nat → Collab → String → Bool → String → Except AddErr Unit × List Ev
  | 0, _, _, _, _ => (Except.error AddErr.outOfFuel, [])
  | Nat.succ _, C, dir, force, p =>
    let ignoreEvs := if force then ([] : List Ev) else [Ev.isIgnored p]
    if force = false ∧ C.ignored p = true then
      (Except.ok (), ignoreEvs)
    else
      match C.lstat (joinP dir p) with
      | none => (Except.error (AddErr.notFound p), ignoreEvs ++ [Ev.lstat (joinP dir p)])
      | some k =>
        if k = FKind.dir then
          let children := C.readdir (joinP dir p)
          let sub := children.map (fun child =>
            let e := expandGlobPath C (joinP p child)
            (settleOutcome [C.promiseTask e.1], e.2))
          (firstError (sub.map Prod.fst),
            ignoreEvs ++ [Ev.lstat (joinP dir p), Ev.readdir (joinP dir p)]
              ++ (sub.map Prod.snd).flatten)
        else
          let rwEv := if k = FKind.link then Ev.readlink (joinP dir p)
            else Ev.read (joinP dir p)
          let objectO := if k = FKind.link then (C.readlink (joinP dir p)).map posixify
            else C.read (joinP dir p)
          match objectO with
          | none => (Except.error (AddErr.notFound p), ignoreEvs ++ [Ev.lstat (joinP dir p), rwEv])
          | some object =>
            (Except.ok (),
              ignoreEvs ++ [Ev.lstat (joinP dir p), rwEv, Ev.writeObject object,
                Ev.insert p (C.writeObject object)])

/-- addToIndex as deployed (src/api/add.js lines 57-113): the awaited
expandGlobs value is an array with one unawaited promise per input
path, so the map of line 61 runs one task per INPUT path and each task
receives that promise, not a path string.  The recorded trace is the
expansion phase's; each task's outcome is the unconstrained
promiseTask of its promise's resolution, and all outcomes are settled
by the policy of lines 97-106.  (The fulfilled-value list of lines
108-112 is always a list of undefineds — no task returns a truthy
value — so the outcome is modelled as Except AddErr Unit.) -/
def addToIndex : Nat → Collab → String → Bool → List String → Except AddErr Unit × List Ev
  | 0, _, _, _, _ => (Except.error AddErr.outOfFuel, [])
  | Nat.succ _, C, _, _, paths =>
    let ts := paths.map (fun p => C.promiseTask (expandGlobPath C p).1)
    (settleOutcome ts, expandEvs C paths)

/-- The top-level errors add can produce: a missing required parameter
(assertParameter, modelled from the spec's MissingArgument kind) or an
error thrown out of the index transaction callback. -/
inductive TopErr where
  | missingParameter (name : String)
  | gitErr (e : AddErr)

/-- An error as the caller of add receives it: the underlying error
with its caller field set (src/api/add.js lines 51-54). -/
structure CallerTagged where
  err : TopErr
  caller : String

/-- The arguments of add; a none field is an absent (undefined)
argument.  gitdir defaults to join(dir, git-directory-name) when
absent, so after the dir check it is always present. -/
structure AddArgs where
  fs : Option Collab
  dir : Option String
  gitdir : Option String
  filepath : Option (List String)
  force : Bool

/-- The body of add inside the try (src/api/add.js lines 42-50):
assert fs, dir, gitdir, filepath in that order (assertParameter is
modelled from the spec: it throws the missing-parameter error for an
absent argument), then run addToIndex inside the index transaction. -/
def addCore (fuel : Nat) (a : AddArgs) : Except TopErr Unit :=
  match a.fs with
  | none => Except.error (TopErr.missingParameter "fs")
  | some C =>
    match a.dir with
    | none => Except.error (TopErr.missingParameter "dir")
    | some dir =>
      match a.filepath with
      | none => Except.error (TopErr.missingParameter "filepath")
      | some fp =>
        match (addToIndex fuel C dir a.force fp).1 with
        | Except.ok _ => Except.ok ()
        | Except.error e => Except.error (TopErr.gitErr e)

/-- add (src/api/add.js lines 33-55): run the body and, on any error,
rethrow it with the caller field set to the string git.add. -/
def add (fuel : Nat) (a : AddArgs) : Except CallerTagged Unit :=
  match addCore fuel a with
  | Except.ok _ => Except.ok ()
  | Except.error e => Except.error (CallerTagged.mk e "git.add")

/-- Follows the spec's words, for comparison with the source matcher:
compile the file-pattern by ESCAPING all non-glob characters (so they
match literally) and translating star to any-sequence and question mark
to any-one-character. -/
def specGlobTokens (cs : List Char) : List GTok :=
  cs.map (fun c =>
    if c = '*' then GTok.star
    else if c = '?' then GTok.anyc
    else GTok.lit c)

/-- Follows the spec's words: anchored matching under the escaped
compilation. -/
def specGlobMatch (pat : String) (name : String) : Bool :=
  globMatch (specGlobTokens pat.data) name.data

/-- The per-event invariant the traces satisfy: every lstat, read and
readlink call uses a root-joined path, and every inserted index entry
is for a path whose stat reported a non-directory kind. -/
def evOk (C : Collab) (dir : String) : Ev → Prop
  | Ev.lstat q => ∃ r, q = joinP dir r
  | Ev.read q => ∃ r, q = joinP dir r
  | Ev.readlink q => ∃ r, q = joinP dir r
  | Ev.insert q _ => ∃ k, C.lstat (joinP dir q) = some k ∧ k ≠ FKind.dir
  | _ => True

/-- A working tree with nothing in it: every lstat misses. -/
def missC : Collab :=
  ⟨fun _ => none, fun _ => [], fun _ => none, fun _ => none,
   fun _ => false, fun s => "oid-" ++ s,
   fun _ => Except.ok ()⟩

/-- A working tree rooted at wd holding one regular file x with content
hello; y and z do not exist. -/
def xyzC : Collab :=
  ⟨fun p => if p = "wd/x" then some FKind.file else none,
   fun _ => [],
   fun p => if p = "wd/x" then some "hello" else none,
   fun _ => none, fun _ => false, fun s => "oid-" ++ s,
   fun _ => Except.ok ()⟩

/-- A working tree rooted at wd with a directory d containing a
subdirectory sub containing one regular file f.txt with content c. -/
def nestC : Collab :=
  ⟨fun p => if p = "wd/d" then some FKind.dir
    else if p = "wd/d/sub" then some FKind.dir
    else if p = "wd/d/sub/f.txt" then some FKind.file else none,
   fun p => if p = "wd/d" then ["sub"] else if p = "wd/d/sub" then ["f.txt"] else [],
   fun p => if p = "wd/d/sub/f.txt" then some "c" else none,
   fun _ => none, fun _ => false, fun s => "oid-" ++ s,
   fun _ => Except.ok ()⟩

/-- A directory dir whose immediate children are a.txt, b.txt and c.md
(the spec's glob-expansion example). -/
def abcC : Collab :=
  ⟨fun _ => none,
   fun d => if d = "dir" then ["a.txt", "b.txt", "c.md"] else [],
   fun _ => none, fun _ => none, fun _ => false, fun s => "oid-" ++ s,
   fun _ => Except.ok ()⟩

/-- A directory dir whose immediate children are a.txt, b.txt, c.md and
aXtxt; aXtxt does not match an escaped-literal reading of the pattern
star-dot-txt but does match the source's unescaped compilation. -/
def axC : Collab :=
  ⟨fun _ => none,
   fun d => if d = "dir" then ["a.txt", "b.txt", "c.md", "aXtxt"] else [],
   fun _ => none, fun _ => none, fun _ => false, fun s => "oid-" ++ s,
   fun _ => Except.ok ()⟩

/-- A working tree rooted at wd holding one symbolic link lnk whose raw
target is dot-dot-backslash-other.txt, alongside an existing regular
file other.txt with different content (to show the link target, not the
referenced file, is what gets stored). -/
def linkC : Collab :=
  ⟨fun p => if p = "wd/lnk" then some FKind.link
    else if p = "wd/other.txt" then some FKind.file else none,
   fun _ => [],
   fun p => if p = "wd/other.txt" then some "FILE CONTENT" else none,
   fun p => if p = "wd/lnk" then some "..\\other.txt" else none,
   fun _ => false, fun s => "oid-" ++ s,
   fun _ => Except.ok ()⟩

/-- A working tree rooted at wd holding one path fifo whose stat
reports neither file, directory nor symlink, and which the file system
cannot read as a regular file. -/
def otherC : Collab :=
  ⟨fun p => if p = "wd/fifo" then some FKind.other else none,
   fun _ => [],
   fun _ => none, fun _ => none, fun _ => false, fun s => "oid-" ++ s,
   fun _ => Except.ok ()⟩

/-- A working tree rooted at wd holding an empty directory d, together
with a directory named dir (a bare working-tree-relative name) visible
to the UNJOINED readdir the glob expansion performs; wd/dir/a.txt is a
regular file so the expanded glob match stages cleanly. -/
def globC : Collab :=
  ⟨fun p => if p = "wd/d" then some FKind.dir
    else if p = "wd/dir/a.txt" then some FKind.file else none,
   fun p => if p = "wd/d" then [] else if p = "dir" then ["a.txt"] else [],
   fun p => if p = "wd/dir/a.txt" then some "aa" else none,
   fun _ => none, fun _ => false, fun s => "oid-" ++ s,
   fun _ => Except.ok ()⟩

/-- An ignore filter that ignores sec.txt, over a tree where sec.txt
exists as a regular file (so only the ignore rule can skip it). -/
def igC : Collab :=
  ⟨fun p => if p = "wd/sec.txt" then some FKind.file else none,
   fun _ => [],
   fun p => if p = "wd/sec.txt" then some "s3cret" else none,
   fun _ => none, fun p => p = "sec.txt", fun s => "oid-" ++ s,
   fun _ => Except.ok ()⟩

/-- A call of add with every argument absent. -/
def noArgs : AddArgs := ⟨none, none, none, none, false⟩

/-! ## Helper lemmas -/

/-- When no task was rejected the settle succeeds. -/
theorem settleOutcome_of_nil {s : List (Except AddErr Unit)}
    (h : rejectedOf s = []) : settleOutcome s = Except.ok () := by
  unfold settleOutcome
  rw [h]
  simp

/-- When exactly one task was rejected the settle rethrows its reason. -/
theorem settleOutcome_of_single {s : List (Except AddErr Unit)} {e : AddErr}
    (h : rejectedOf s = [e]) : settleOutcome s = Except.error e := by
  unfold settleOutcome
  rw [h]
  simp

/-- When at least two tasks were rejected the settle throws the
aggregate error over all the rejection reasons. -/
theorem settleOutcome_of_many {s : List (Except AddErr Unit)}
    (h : 2 ≤ (rejectedOf s).length) :
    settleOutcome s = Except.error (AddErr.multiple (rejectedOf s)) := by
  unfold settleOutcome
  rw [if_pos (by omega)]

/-- The expansion trace is empty or one readdir event. -/
theorem expandGlobPath_evs (C : Collab) (q : String) :
    (expandGlobPath C q).2 = [] ∨ ∃ g, (expandGlobPath C q).2 = [Ev.readdir g] := by
  unfold expandGlobPath
  split
  · right
    exact ⟨_, rfl⟩
  · left
    rfl

/-- Every event a per-path task records satisfies the invariant. -/
theorem perPath_evOk (C : Collab) (dir : String) (force : Bool) :
    ∀ (fuel : Nat) (p : String), ∀ ev ∈ (perPath fuel C dir force p).2, evOk C dir ev := by
  intro fuel
  cases fuel with
  | zero =>
    intro p ev h
    simp [perPath] at h
  | succ fuel =>
    intro p ev h
    simp only [perPath] at h
    split at h
    · -- ignored: trace is the ignore-consultation event alone
      split at h
      · simp at h
      · simp at h
        subst h
        trivial
    · -- not skipped: split on the lstat result
      split at h
      · -- lstat missed
        simp only [List.mem_append] at h
        rcases h with h | h
        · split at h <;> simp at h
          subst h
          trivial
        · simp at h
          subst h
          exact ⟨p, rfl⟩
      · -- lstat hit: split on the directory test
        rename_i k heq
        split at h
        · -- directory branch
          rename_i hk
          simp only [List.append_assoc, List.mem_append] at h
          rcases h with h | h | h
          · split at h <;> simp at h
            subst h
            trivial
          · simp at h
            rcases h with h | h
            · subst h; exact ⟨p, rfl⟩
            · subst h; trivial
          · simp only [List.map_map, List.mem_flatten, List.mem_map, Function.comp] at h
            rcases h with ⟨tr, ⟨child, hch, htr⟩, hev⟩
            rw [← htr] at hev
            rcases expandGlobPath_evs C (joinP p child) with he | ⟨g, he⟩
            · rw [he] at hev
              simp at hev
            · rw [he] at hev
              simp at hev
              subst hev
              trivial
        · -- non-directory: split on the object read
          rename_i hk
          split at h
          · -- content missing
            simp only [List.mem_append] at h
            rcases h with h | h
            · split at h <;> simp at h
              subst h
              trivial
            · simp at h
              rcases h with h | h
              · subst h; exact ⟨p, rfl⟩
              · split at h
                · subst h; exact ⟨p, rfl⟩
                · subst h; exact ⟨p, rfl⟩
          · -- content present: blob written, entry inserted
            simp only [List.mem_append] at h
            rcases h with h | h
            · split at h <;> simp at h
              subst h
              trivial
            · simp at h
              rcases h with h | h | h | h
              · subst h; exact ⟨p, rfl⟩
              · split at h
                · subst h; exact ⟨p, rfl⟩
                · subst h; exact ⟨p, rfl⟩
              · subst h; trivial
              · subst h; exact ⟨k, heq, hk⟩

/-- With force set, the run never consults the ignore filter: the whole
run is unchanged under any replacement of the ignore predicate. -/
theorem perPath_force_ignored_irrel
    (ls : String → Option FKind) (rd : String → List String)
    (re rl : String → Option String) (wo : String → String)
    (ig ig2 : String → Bool) (pt : List String → Except AddErr Unit) (dir : String) :
    ∀ (fuel : Nat) (p : String),
      perPath fuel ⟨ls, rd, re, rl, ig, wo, pt⟩ dir true p =
        perPath fuel ⟨ls, rd, re, rl, ig2, wo, pt⟩ dir true p := by
  intro fuel
  cases fuel with
  | zero => intro p; rfl
  | succ fuel =>
    intro p
    have hexp : ∀ q, expandGlobPath ⟨ls, rd, re, rl, ig, wo, pt⟩ q =
        expandGlobPath ⟨ls, rd, re, rl, ig2, wo, pt⟩ q := fun _ => rfl
    simp only [perPath, hexp]
    simp

/-! ## The claims -/

/-- C1: the claim is the spec's intent and the code breaks it.
Evaluating the source at the failing input: expandGlobs at the single
path missing.txt resolves to an array whose one element is the
unawaited promise of the expansion — the value is the LIST [missing.txt],
not the path string — so the task of line 61 closes over a promise and
the NotFoundError of line 72 can never be constructed with the string
missing.txt.  The settle policy of lines 97-106 itself is exactly the
claimed one, shown on its three cases: one rejection is rethrown alone,
two are aggregated into MultipleGitError with both reasons kept, none
succeeds. -/
theorem claim_C1_bug :
    expandGlobs missC ["missing.txt"] = [["missing.txt"]] ∧
    settleOutcome [Except.error (AddErr.notFound "missing.txt")] =
      Except.error (AddErr.notFound "missing.txt") ∧
    settleOutcome [Except.error (AddErr.notFound "y"), Except.error (AddErr.notFound "z")] =
      Except.error (AddErr.multiple [AddErr.notFound "y", AddErr.notFound "z"]) ∧
    settleOutcome [Except.ok (), Except.ok ()] = Except.ok () :=
  ⟨rfl, rfl, rfl, rfl⟩

/-- C2: evaluating the source's expandGlobs (the unawaited reduce over
the async map) at a request carrying a question-mark glob: the result
has one element per input path, each the resolved value of that path's
promise (a path LIST, not a path), and the question-mark pattern is
returned untouched rather than replaced by its match dir/c.md. -/
theorem claim_C2_bug :
    expandGlobs abcC ["dir/?.md", "other.txt"] = [["dir/?.md"], ["other.txt"]] := rfl

/-- C3 counterexample: the source's matcher does not escape non-glob
characters.  Under the claim's escaped-literal compilation the name
aXtxt does not match the pattern star-dot-txt, yet expanding
dir/star-dot-txt over a directory with children a.txt, b.txt, c.md,
aXtxt keeps dir/aXtxt (the unescaped dot matches the X). -/
theorem claim_C3_cex :
    specGlobMatch "*.txt" "aXtxt" = false ∧
    "dir/aXtxt" ∈ (expandGlobPath axC "dir/*.txt").1 ∧
    (expandGlobPath axC "dir/*.txt").1 =
      ["dir/a.txt", "dir/b.txt", "dir/aXtxt"] := by
  refine ⟨rfl, ?_, rfl⟩
  decide

/-- C3 amended: the expander splits a star-bearing path at the final
slash and keeps the children matching the compiled pattern, anchored at
both ends, with star matching any sequence and question mark exactly one
character — but non-glob characters are NOT escaped (a dot in the
pattern matches any character), and only a star triggers expansion at
all, so dir/question-mark-dot-md passes through unchanged instead of
expanding to dir/c.md.  Over the directory with children a.txt, b.txt,
c.md, the pattern dir/star-dot-txt expands to exactly dir/a.txt and
dir/b.txt. -/
theorem claim_C3 :
    (expandGlobPath abcC "dir/*.txt").1 = ["dir/a.txt", "dir/b.txt"] ∧
    (expandGlobPath abcC "dir/?.md").1 = ["dir/?.md"] ∧
    globMatch (globTokens ("?.md".data)) ("c.md".data) = true ∧
    globMatch (globTokens ("*.txt".data)) ("aXtxt".data) = true ∧
    (expandGlobPath abcC "dir/*.xyz").1 = [] :=
  ⟨rfl, rfl, rfl, rfl, rfl⟩

/-- C4: the claim is the spec's intent and the code breaks it.
Evaluating the source at the failing input x, y, z (x an existing
file, y and z missing): the settle of lines 97-106 does wait for and
report every sibling, but each of the three tasks receives the
unawaited promise of its path's expansion — the lists [x], [y], [z],
not the path strings — so no task ever stages x (no index entry
keyed x is inserted) and no task constructs the NotFound errors for
y and z. -/
theorem claim_C4_bug :
    expandGlobs xyzC ["x", "y", "z"] = [["x"], ["y"], ["z"]] := rfl

/-- C5: a path the ignore filter reports ignored is skipped as a
success when force is unset — the task's whole trace is the one ignore
consultation, so no stat, no object write, no index insertion and no
failure happen for it; and with force set the ignore predicate is
bypassed entirely: the run is unchanged under any replacement of the
ignore predicate, so the path is staged exactly as if nothing were
ignored. -/
theorem claim_C5 :
    (∀ (fuel : Nat) (C : Collab) (dir p : String), C.ignored p = true →
      perPath (Nat.succ fuel) C dir false p = (Except.ok (), [Ev.isIgnored p])) ∧
    (∀ (fuel : Nat) (ls : String → Option FKind) (rd : String → List String)
       (re rl : String → Option String) (ig ig2 : String → Bool)
       (wo : String → String) (pt : List String → Except AddErr Unit) (dir p : String),
      perPath fuel ⟨ls, rd, re, rl, ig, wo, pt⟩ dir true p =
        perPath fuel ⟨ls, rd, re, rl, ig2, wo, pt⟩ dir true p) := by
  constructor
  · intro fuel C dir p h
    simp [perPath, h]
  · intro fuel ls rd re rl ig ig2 wo pt dir p
    exact perPath_force_ignored_irrel ls rd re rl wo ig ig2 pt dir fuel p

/-- C5 witness: sec.txt is ignored, exists as a regular file, and is
skipped with a trace of exactly the one ignore consultation. -/
theorem claim_C5_w :
    perPath 1 igC "wd" false "sec.txt" = (Except.ok (), [Ev.isIgnored "sec.txt"]) :=
  claim_C5.1 0 igC "wd" "sec.txt" rfl

/-- C6: a path whose lstat reports a symbolic link is staged by
readlink, never read and never recursed into: the task's whole trace is
the optional ignore consultation, the lstat, the readlink, the write of
a blob whose content is exactly the posixified link target, and the
index insertion of that blob's id — no readdir and no read occur. -/
theorem claim_C6 (fuel : Nat) (C : Collab) (dir : String) (force : Bool) (p t : String)
    (h1 : C.lstat (joinP dir p) = some FKind.link)
    (h2 : C.readlink (joinP dir p) = some t)
    (h3 : force = true ∨ C.ignored p = false) :
    perPath (Nat.succ fuel) C dir force p =
      (Except.ok (), (if force then ([] : List Ev) else [Ev.isIgnored p]) ++
        [Ev.lstat (joinP dir p), Ev.readlink (joinP dir p),
         Ev.writeObject (posixify t), Ev.insert p (C.writeObject (posixify t))]) := by
  rcases h3 with h3 | h3
  · subst h3
    simp [perPath, h1, h2]
  · simp [perPath, h1, h2, h3]

/-- C6 witness: a link lnk with raw target dot-dot-backslash-other.txt
stores a blob whose content is the posixified literal
dot-dot-slash-other.txt, not the referenced file's content. -/
theorem claim_C6_w :
    perPath 1 linkC "wd" false "lnk" =
      (Except.ok (), (if false then ([] : List Ev) else [Ev.isIgnored "lnk"]) ++
        [Ev.lstat (joinP "wd" "lnk"), Ev.readlink (joinP "wd" "lnk"),
         Ev.writeObject (posixify "..\\other.txt"),
         Ev.insert "lnk" (linkC.writeObject (posixify "..\\other.txt"))]) :=
  claim_C6 0 linkC "wd" false "lnk" "..\\other.txt" rfl rfl (Or.inr rfl)

/-- C7: the claim is the spec's intent and the code breaks it.
Evaluating the recursion at the failing input, the directory d whose
child sub holds the leaf f.txt: the top-level call on d and the
line-77 recursive call on the joined child path d/sub each hand their
single task the unawaited promise of the expansion (the lists [d] and
[d/sub], not path strings), so the walk never reaches the leaf
d/sub/f.txt with a path string and no leaf is ever staged. -/
theorem claim_C7_bug :
    expandGlobs nestC ["d"] = [["d"]] ∧
    expandGlobs nestC ["d/sub"] = [["d/sub"]] :=
  ⟨rfl, rfl⟩

/-- C8 counterexample: the readdir performed for glob expansion — a
call the deployed program really makes, since every expansion callback
runs even though its promise is never awaited — operates on the bare
directory component dir, and the root-joined wd/dir is never read
during expansion; the claim says this readdir, like every other
file-system call, uses the root-joined path. -/
theorem claim_C8_cex :
    Ev.readdir "dir" ∈ expandEvs globC ["dir/*.txt"] ∧
    Ev.readdir (joinP "wd" "dir") ∉ expandEvs globC ["dir/*.txt"] := by
  decide

/-- C8 amended: every lstat, read and readlink the per-path task makes
on a path it processes is on the working-tree root joined with that
path (the call sites of lines 71, 89, 90), and the walk's readdir call
site likewise passes the joined path (line 75, shown at the determined
empty-directory instance) — but the readdir used for glob expansion
(line 131) operates on the bare directory component, unjoined; the
deployed composition moreover never hands the per-path task an actual
path string (the defect recorded at C2). -/
theorem claim_C8 :
    (∀ (fuel : Nat) (C : Collab) (dir : String) (force : Bool) (p q : String),
      (Ev.lstat q ∈ (perPath fuel C dir force p).2 → ∃ r, q = joinP dir r) ∧
      (Ev.read q ∈ (perPath fuel C dir force p).2 → ∃ r, q = joinP dir r) ∧
      (Ev.readlink q ∈ (perPath fuel C dir force p).2 → ∃ r, q = joinP dir r)) ∧
    Ev.readdir (joinP "wd" "d") ∈ (perPath 1 globC "wd" false "d").2 ∧
    Ev.readdir "dir" ∈ expandEvs globC ["d", "dir/*.txt"] ∧
    Ev.readdir (joinP "wd" "dir") ∉ expandEvs globC ["d", "dir/*.txt"] := by
  refine ⟨?_, by decide, by decide, by decide⟩
  intro fuel C dir force p q
  exact ⟨fun h => perPath_evOk C dir force fuel p (Ev.lstat q) h,
    fun h => perPath_evOk C dir force fuel p (Ev.read q) h,
    fun h => perPath_evOk C dir force fuel p (Ev.readlink q) h⟩

/-- C8 witness: the lstat of x in the x-y-z run is root-joined. -/
theorem claim_C8_w : ∃ r, "wd/x" = joinP "wd" r :=
  (claim_C8.1 1 xyzC "wd" false "x" "wd/x").1 (by decide)

/-- C9: a path whose lstat succeeds with a kind that is neither file,
directory nor symlink falls into the read branch, whose null content is
turned into the NotFound error naming that path; the trace shows no
object write and no index insertion for it. -/
theorem claim_C9 (fuel : Nat) (C : Collab) (dir : String) (force : Bool) (p : String)
    (h1 : C.lstat (joinP dir p) = some FKind.other)
    (h2 : C.read (joinP dir p) = none)
    (h3 : force = true ∨ C.ignored p = false) :
    perPath (Nat.succ fuel) C dir force p =
      (Except.error (AddErr.notFound p),
        (if force then ([] : List Ev) else [Ev.isIgnored p]) ++
          [Ev.lstat (joinP dir p), Ev.read (joinP dir p)]) := by
  rcases h3 with h3 | h3
  · subst h3
    simp [perPath, h1, h2]
  · simp [perPath, h1, h2, h3]

/-- C9 witness: the fifo path stats as other, cannot be read, and fails
with NotFound naming fifo, with no write and no insertion. -/
theorem claim_C9_w :
    perPath 1 otherC "wd" false "fifo" =
      (Except.error (AddErr.notFound "fifo"),
        (if false then ([] : List Ev) else [Ev.isIgnored "fifo"]) ++
          [Ev.lstat (joinP "wd" "fifo"), Ev.read (joinP "wd" "fifo")]) :=
  claim_C9 0 otherC "wd" false "fifo" rfl rfl (Or.inr rfl)

/-- C10: every error add lets escape — missing-argument assertions and
errors thrown out of the transaction callback alike — carries the
caller field git.add. -/
theorem claim_C10 (fuel : Nat) (a : AddArgs) (e : CallerTagged)
    (h : add fuel a = Except.error e) : e.caller = "git.add" := by
  unfold add at h
  cases hc : addCore fuel a with
  | ok u =>
    rw [hc] at h
    simp at h
  | error e2 =>
    rw [hc] at h
    simp only [Except.error.injEq] at h
    rw [← h]

/-- C10 witness: calling add with no arguments at all fails on the fs
assertion, and the escaping error is tagged with caller git.add. -/
theorem claim_C10_w :
    (CallerTagged.mk (TopErr.missingParameter "fs") "git.add").caller = "git.add" :=
  claim_C10 1 noArgs (CallerTagged.mk (TopErr.missingParameter "fs") "git.add") rfl
